import Mathlib

/-!
Shallow embedding of `src/main.py` (a Telegram file-store bot).

The program keeps three pieces of in-memory state (main.py:27-29):
a dict `video_storage : token → list of archived message ids`, a dict
`delete_timer` holding the single integer `delete_timer["timer"]`, and a
dict `batch_sessions : admin id → list of pending messages`.  Python
dicts are embedded as association lists together with operations that
mirror dict lookup, assignment, membership and deletion; dict keys are
unique, so removing every binding of a key coincides with `del`.

Calls into the bot platform (`copy_message`, `delete_message`) are the
only sources of failure the handlers catch; they are embedded as oracle
functions passed to each handler (`copy : Msg → Option Nat` returns the
forwarded message id or `none` for a raised exception, `delOk`/`copyOk :
Nat → Bool` likewise).  `uuid.uuid4()` draws are passed in as a `freshTok`
argument, `ADMIN_ID` as an `adminId` argument.  `save_storage()` performs
I/O only, so handlers report whether it ran as a `saved : Bool` flag.
-/

namespace FileStore

/-- A Telegram message as the handlers use it: `msg.chat_id` and
`msg.message_id` (main.py:175-176). -/
structure Msg where
  chat_id : Nat
  message_id : Nat
  deriving DecidableEq

/-- Python dict lookup `d.get(k)`: the value bound to the key, if any. -/
def pyGet {κ α : Type} [DecidableEq κ] : List (κ × α) → κ → Option α
  | [], _ => none
  | (k', v) :: rest, k => if k' = k then some v else pyGet rest k

/-- Python dict membership `k in d`. -/
def pyContains {κ α : Type} [DecidableEq κ] (d : List (κ × α)) (k : κ) : Bool :=
  (pyGet d k).isSome

/-- Python dict assignment `d[k] = v`: replace the binding if the key is
present, otherwise append a new one. -/
def pyInsert {κ α : Type} [DecidableEq κ] : List (κ × α) → κ → α → List (κ × α)
  | [], k, v => [(k, v)]
  | (k', v') :: rest, k, v =>
    if k' = k then (k, v) :: rest else (k', v') :: pyInsert rest k v

/-- Python dict deletion `del d[k]` (keys are unique in a dict, so dropping
every binding of the key is the same operation). -/
def pyErase {κ α : Type} [DecidableEq κ] : List (κ × α) → κ → List (κ × α)
  | [], _ => []
  | (k', v) :: rest, k =>
    if k' = k then pyErase rest k else (k', v) :: pyErase rest k

/-- Python `d[k].append(x)` on a dict of lists (main.py:115): extend the
list bound at the key in place. -/
def pyAppendAt {κ α : Type} [DecidableEq κ] : List (κ × List α) → κ → α → List (κ × List α)
  | [], _, _ => []
  | (k', l) :: rest, k, x =>
    if k' = k then (k, l ++ [x]) :: rest else (k', l) :: pyAppendAt rest k x

/-- The in-memory state of main.py:27-29: `video_storage`, the value
`delete_timer["timer"]`, and `batch_sessions`. -/
structure BotState where
  video_storage : List (String × List Nat)
  delete_timer : Nat
  batch_sessions : List (Nat × List Msg)
  deriving DecidableEq

/-- Replies of the `start` handler (main.py:60-71). -/
inductive StartReply
  | welcome
  | delivered
  | deliverError
  | invalidLink
  deriving DecidableEq

/-- Replies of the `settimer` handler (main.py:92-102). -/
inductive TimerReply
  | denied
  | usage
  | updated (seconds : Nat)
  deriving DecidableEq

/-- Replies of the `batch_command` handler (main.py:148-156). -/
inductive BatchReply
  | denied
  | alreadyActive
  | started
  deriving DecidableEq

/-- Replies of the `done_command` handler (main.py:161-196). -/
inductive DoneReply
  | denied
  | noBatch
  | batchStored (token : String)
  | batchError
  deriving DecidableEq

/-- Replies of the `handle_media` handler (main.py:110-143). -/
inductive MediaReply
  | denied
  | addedToBatch
  | mediaStored (token : String)
  | mediaError
  deriving DecidableEq

/-- A one-shot job armed via `context.job_queue.run_once` (main.py:135-140,
188-193): the job name is the token, its data the ids to delete, `delay`
the current timer value. -/
structure Job where
  token : String
  message_ids : List Nat
  delay : Nat
  deriving DecidableEq

/-- Outcome of `done_command`: the new state, the reply, the job armed (if
any), whether `save_storage` ran, the forwarded ids collected in
`message_ids` (main.py:169-179), and the messages for which a
`copy_message` call was made. -/
structure DoneOut where
  state : BotState
  reply : DoneReply
  job : Option Job
  saved : Bool
  copied : List Nat
  attempted : List Msg
  deriving DecidableEq

/-- Outcome of `handle_media`: new state, reply, job armed, save flag. -/
structure MediaOut where
  state : BotState
  reply : MediaReply
  job : Option Job
  saved : Bool
  deriving DecidableEq

/-- The copy loop of `start` (main.py:53-59): copy each archived id, in
order, to the requester; the first failing call raises, aborting the loop.
Returns the ids successfully copied and whether the loop completed. -/
def copyLoop (copyOk : Nat → Bool) : List Nat → List Nat × Bool
  | [] => ([], true)
  | i :: rest =>
    if copyOk i then
      let p := copyLoop copyOk rest
      (i :: p.1, p.2)
    else ([], false)

/-- The copy loop of `done_command` (main.py:172-179): copy each pending
message into the archive channel, collecting forwarded ids; the first
failure raises and aborts the loop (messages already copied stay in the
channel).  Returns (forwarded ids collected, messages attempted, success). -/
def copyBatch (copy : Msg → Option Nat) : List Msg → List Nat × List Msg × Bool
  | [] => ([], [], true)
  | m :: rest =>
    match copy m with
    | none => ([], [m], false)
    | some fid =>
      let p := copyBatch copy rest
      (fid :: p.1, m :: p.2.1, p.2.2)

/-- The `start` handler (main.py:44-71).  `args` are the command arguments,
`copyOk` the oracle for `context.bot.copy_message` to the requester.
Returns the reply and the archived ids actually copied to the requester.
Note main.py:51 tests `if message_ids:`, which is falsy both for a missing
token and for an empty id list. -/
def start (st : BotState) (args : List String) (copyOk : Nat → Bool) :
    StartReply × List Nat :=
  match args with
  | [] => (StartReply.welcome, [])
  | token :: _ =>
    match pyGet st.video_storage token with
    | none => (StartReply.invalidLink, [])
    | some ids =>
      if ids.isEmpty then (StartReply.invalidLink, [])
      else
        let p := copyLoop copyOk ids
        if p.2 then (StartReply.delivered, p.1) else (StartReply.deliverError, p.1)

/-- Python `str.isdigit` on the ASCII strings the bot receives: non-empty
and all decimal digits (main.py:95). -/
def pyIsDigit (s : String) : Bool :=
  !s.isEmpty && s.all Char.isDigit

/-- The `settimer` handler (main.py:89-102).  Returns the new timer value,
the reply, and whether `save_storage` ran. -/
def settimer (adminId : Nat) (userId : Nat) (timer : Nat) (args : List String) :
    Nat × TimerReply × Bool :=
  if userId ≠ adminId then (timer, TimerReply.denied, false)
  else
    match args with
    | [] => (timer, TimerReply.usage, false)
    | a :: _ =>
      if pyIsDigit a then (a.toNat!, TimerReply.updated a.toNat!, true)
      else (timer, TimerReply.usage, false)

/-- The `handle_media` handler (main.py:105-143).  `msg` is the uploaded
message, `freshTok` the `uuid.uuid4()` draw, `copy` the oracle for
`copy_message` into the archive channel. -/
def handle_media (adminId : Nat) (st : BotState) (userId : Nat) (msg : Msg)
    (freshTok : String) (copy : Msg → Option Nat) : MediaOut :=
  if userId ≠ adminId then ⟨st, MediaReply.denied, none, false⟩
  else if pyContains st.batch_sessions userId then
    ⟨{ st with batch_sessions := pyAppendAt st.batch_sessions userId msg },
      MediaReply.addedToBatch, none, false⟩
  else
    match copy msg with
    | none => ⟨st, MediaReply.mediaError, none, false⟩
    | some fid =>
      ⟨{ st with video_storage := pyInsert st.video_storage freshTok [fid] },
        MediaReply.mediaStored freshTok,
        some ⟨freshTok, [fid], st.delete_timer⟩, true⟩

/-- The `batch_command` handler (main.py:145-156). -/
def batch_command (adminId : Nat) (st : BotState) (userId : Nat) :
    BotState × BatchReply :=
  if userId ≠ adminId then (st, BatchReply.denied)
  else if pyContains st.batch_sessions userId then (st, BatchReply.alreadyActive)
  else ({ st with batch_sessions := pyInsert st.batch_sessions userId [] },
        BatchReply.started)

/-- The `done_command` handler (main.py:158-196).  Mirrors the source
order: the empty/missing-session test (164), the `pop` of the session
(168), the copy loop inside `try` (171-179), then token creation, storage
write and job scheduling (181-193) or the exception branch (194-196). -/
def done_command (adminId : Nat) (st : BotState) (userId : Nat)
    (freshTok : String) (copy : Msg → Option Nat) : DoneOut :=
  if userId ≠ adminId then ⟨st, DoneReply.denied, none, false, [], []⟩
  else
    match pyGet st.batch_sessions userId with
    | none => ⟨st, DoneReply.noBatch, none, false, [], []⟩
    | some msgs =>
      if msgs.isEmpty then ⟨st, DoneReply.noBatch, none, false, [], []⟩
      else
        let sessions := pyErase st.batch_sessions userId
        let p := copyBatch copy msgs
        if p.2.2 then
          ⟨{ st with video_storage := pyInsert st.video_storage freshTok p.1,
                     batch_sessions := sessions },
            DoneReply.batchStored freshTok,
            some ⟨freshTok, p.1, st.delete_timer⟩, true, p.1, p.2.1⟩
        else
          ⟨{ st with batch_sessions := sessions },
            DoneReply.batchError, none, false, p.1, p.2.1⟩

/-- The deletion sweep `delete_from_channel` (main.py:199-212).  The job
carries the token (job name) and the ids to delete; `delOk` models
`bot.delete_message`, whose failures are caught and logged (205-208).
Returns the new storage, the list of attempts `(id, succeeded)`, and
whether `save_storage` ran. -/
def delete_from_channel (storage : List (String × List Nat)) (token : String)
    (message_ids : List Nat) (delOk : Nat → Bool) :
    List (String × List Nat) × List (Nat × Bool) × Bool :=
  let attempts := message_ids.map (fun i => (i, delOk i))
  if pyContains storage token then (pyErase storage token, attempts, true)
  else (storage, attempts, false)

/-- Registry `put`, the storage write performed at main.py:127-129 and
181-183: bind a freshly drawn token to the collected id list
(`video_storage[token] = ids`). -/
def put (storage : List (String × List Nat)) (token : String) (ids : List Nat) :
    List (String × List Nat) :=
  pyInsert storage token ids

/-- Registry `get`, the lookup at main.py:50: `video_storage.get(token)`. -/
def get (storage : List (String × List Nat)) (token : String) : Option (List Nat) :=
  pyGet storage token

/-- The registry-removal step of the deletion sweep (main.py:210-212):
delete the token if present and save.  Returns the new storage and
whether `save_storage` ran. -/
def removeToken (storage : List (String × List Nat)) (token : String) :
    List (String × List Nat) × Bool :=
  if pyContains storage token then (pyErase storage token, true)
  else (storage, false)

/-! Dictionary lemmas. -/

/-- Looking up a key right after assigning it yields the assigned value. -/
theorem pyGet_pyInsert_self {κ α : Type} [DecidableEq κ] (d : List (κ × α)) (k : κ) (v : α) :
    pyGet (pyInsert d k v) k = some v := by
  induction d with
  | nil => simp [pyInsert, pyGet]
  | cons p rest ih =>
    obtain ⟨k', v'⟩ := p
    by_cases h : k' = k <;> simp [pyInsert, pyGet, h, ih]

/-- Looking up a key right after deleting it yields nothing. -/
theorem pyGet_pyErase_self {κ α : Type} [DecidableEq κ] (d : List (κ × α)) (k : κ) :
    pyGet (pyErase d k) k = none := by
  induction d with
  | nil => rfl
  | cons p rest ih =>
    obtain ⟨k', v'⟩ := p
    by_cases h : k' = k <;> simp [pyErase, pyGet, h, ih]

/-- Deleting a key twice is deleting it once. -/
theorem pyErase_pyErase {κ α : Type} [DecidableEq κ] (d : List (κ × α)) (k : κ) :
    pyErase (pyErase d k) k = pyErase d k := by
  induction d with
  | nil => rfl
  | cons p rest ih =>
    obtain ⟨k', v'⟩ := p
    by_cases h : k' = k <;> simp [pyErase, h, ih]

/-- A key the dict does not contain looks up to nothing. -/
theorem pyGet_eq_none_of_not_contains {κ α : Type} [DecidableEq κ]
    {d : List (κ × α)} {k : κ} (h : pyContains d k = false) : pyGet d k = none := by
  unfold pyContains at h
  cases hg : pyGet d k with
  | none => rfl
  | some v => rw [hg] at h; simp at h

/-! Copy-loop lemmas. -/

/-- When every platform call succeeds, the retrieval loop of `start`
delivers the whole id list in order. -/
theorem copyLoop_all_ok (copyOk : Nat → Bool) (ids : List Nat)
    (h : ∀ i ∈ ids, copyOk i = true) : copyLoop copyOk ids = (ids, true) := by
  induction ids with
  | nil => rfl
  | cons i rest ih =>
    have hi := h i (List.mem_cons_self i rest)
    have hrest := ih (fun j hj => h j (List.mem_cons_of_mem i hj))
    simp [copyLoop, hi, hrest]

/-- When every archive copy succeeds, the batch loop forwards every
message, collecting one id per message in submission order. -/
theorem copyBatch_all_some (copy : Msg → Option Nat) (msgs : List Msg)
    (h : ∀ m ∈ msgs, (copy m).isSome = true) :
    copyBatch copy msgs = (msgs.filterMap copy, msgs, true) := by
  induction msgs with
  | nil => rfl
  | cons m rest ih =>
    obtain ⟨fid, hfid⟩ := Option.isSome_iff_exists.mp (h m (List.mem_cons_self m rest))
    have hrest := ih (fun x hx => h x (List.mem_cons_of_mem m hx))
    simp [copyBatch, hfid, hrest, List.filterMap_cons]

/-- When the first failing copy is the message `m`, the batch loop stops
there: it collects exactly the forwarded ids of the successful preceding
messages and never touches the remaining ones. -/
theorem copyBatch_first_failure (copy : Msg → Option Nat) (pre : List Msg)
    (m : Msg) (post : List Msg)
    (hpre : ∀ x ∈ pre, (copy x).isSome = true) (hm : copy m = none) :
    copyBatch copy (pre ++ m :: post) = (pre.filterMap copy, pre ++ [m], false) := by
  induction pre with
  | nil => simp [copyBatch, hm]
  | cons x rest ih =>
    obtain ⟨fx, hfx⟩ := Option.isSome_iff_exists.mp (hpre x (List.mem_cons_self x rest))
    have hrest := ih (fun y hy => hpre y (List.mem_cons_of_mem x hy))
    simp [copyBatch, hfx, hrest, List.filterMap_cons]

/-- A `filterMap` over a list on which the function never fails keeps the
list's length. -/
theorem length_filterMap_of_all_some {α β : Type} (f : α → Option β) (l : List α)
    (h : ∀ x ∈ l, (f x).isSome = true) : (l.filterMap f).length = l.length := by
  induction l with
  | nil => rfl
  | cons x rest ih =>
    obtain ⟨y, hy⟩ := Option.isSome_iff_exists.mp (h x (List.mem_cons_self x rest))
    have hrest := ih (fun z hz => h z (List.mem_cons_of_mem x hz))
    simp [List.filterMap_cons, hy, hrest]

/-! Claim theorems. -/

/-- Claim C1: for every non-empty id sequence, `put` under a freshly
generated token followed by `get` with the returned token yields exactly
that sequence; moreover the `start` handler presented with that token then
delivers exactly those ids, in order. -/
theorem C1_put_then_get (storage : List (String × List Nat)) (timer : Nat)
    (sessions : List (Nat × List Msg)) (token : String) (ids : List Nat)
    (hfresh : pyContains storage token = false) (hne : ids ≠ []) :
    get (put storage token ids) token = some ids ∧
    start ⟨put storage token ids, timer, sessions⟩ [token] (fun _ => true) =
      (StartReply.delivered, ids) := by
  have hget : pyGet (pyInsert storage token ids) token = some ids :=
    pyGet_pyInsert_self storage token ids
  have hie : ids.isEmpty = false := by
    cases ids with
    | nil => exact absurd rfl hne
    | cons a t => rfl
  have hloop := copyLoop_all_ok (fun _ => true) ids (fun i _ => rfl)
  exact ⟨hget, by simp [start, put, hget, hie, hloop]⟩

/-- Witness for C1 at a concrete input. -/
theorem C1_witness :
    pyContains ([] : List (String × List Nat)) "t" = false ∧
    ([3, 1, 2] : List Nat) ≠ [] ∧
    (get (put [] "t" [3, 1, 2]) "t" = some [3, 1, 2] ∧
      start ⟨put [] "t" [3, 1, 2], 600, []⟩ ["t"] (fun _ => true) =
        (StartReply.delivered, [3, 1, 2])) :=
  ⟨rfl, by decide, C1_put_then_get [] 600 [] "t" [3, 1, 2] rfl (by decide)⟩

/-- Claim C2: after the deletion sweep for a token runs, the token is
absent from the registry whatever each channel-deletion call returned, and
every id in the job got its own deletion attempt (a failure on one id
blocks neither the remaining attempts nor the token removal). -/
theorem C2_sweep_expires_token (storage : List (String × List Nat)) (token : String)
    (message_ids : List Nat) (delOk : Nat → Bool) :
    pyGet (delete_from_channel storage token message_ids delOk).1 token = none ∧
    (delete_from_channel storage token message_ids delOk).2.1.map Prod.fst = message_ids := by
  constructor
  · by_cases h : pyContains storage token
    · simp [delete_from_channel, h, pyGet_pyErase_self]
    · have h' : pyContains storage token = false := by simpa using h
      simp [delete_from_channel, h', pyGet_eq_none_of_not_contains h']
  · have hmap : ∀ l : List Nat, (l.map (fun i => (i, delOk i))).map Prod.fst = l := by
      intro l
      induction l with
      | nil => rfl
      | cons a t ih => simp only [List.map_cons, ih]
    by_cases h : pyContains storage token <;> simp [delete_from_channel, h, hmap]

/-- Claim C5: `get` on a token absent from the registry — never issued, or
already removed — yields none, and the `start` handler performs no copies
and reports an invalid link; the removal step itself guarantees absence. -/
theorem C5_absent_token_yields_none (st : BotState) (token : String)
    (copyOk : Nat → Bool) (storage : List (String × List Nat))
    (habs : pyGet st.video_storage token = none) :
    get st.video_storage token = none ∧
    start st [token] copyOk = (StartReply.invalidLink, []) ∧
    get (removeToken storage token).1 token = none := by
  refine ⟨habs, by simp [start, habs], ?_⟩
  by_cases h : pyContains storage token
  · simp [removeToken, get, h, pyGet_pyErase_self]
  · have h' : pyContains storage token = false := by simpa using h
    simp [removeToken, get, h', pyGet_eq_none_of_not_contains h']

/-- Witness for C5 at a concrete input. -/
theorem C5_witness :
    pyGet (BotState.mk [("a", [1])] 600 []).video_storage "b" = none ∧
    (get (BotState.mk [("a", [1])] 600 []).video_storage "b" = none ∧
      start (BotState.mk [("a", [1])] 600 []) ["b"] (fun _ => true) =
        (StartReply.invalidLink, []) ∧
      get (removeToken [("a", [1])] "b").1 "b" = none) :=
  ⟨by decide, C5_absent_token_yields_none (BotState.mk [("a", [1])] 600 []) "b"
    (fun _ => true) [("a", [1])] (by decide)⟩

/-- Claim C6: token removal is idempotent — removing twice leaves the
registry exactly as removing once — and removing an absent token is a
no-op (storage returned unchanged, nothing saved). -/
theorem C6_remove_idempotent (storage : List (String × List Nat)) (token : String) :
    (removeToken (removeToken storage token).1 token).1 = (removeToken storage token).1 ∧
    (pyContains storage token = false → removeToken storage token = (storage, false)) := by
  constructor
  · by_cases h : pyContains storage token
    · have habs : pyContains (pyErase storage token) token = false := by
        simp [pyContains, pyGet_pyErase_self]
      simp [removeToken, h, habs]
    · have h' : pyContains storage token = false := by simpa using h
      simp [removeToken, h']
  · intro h
    simp [removeToken, h]

/-- Witness for C6 at a concrete input. -/
theorem C6_witness :
    pyContains ([("a", [1])] : List (String × List Nat)) "b" = false ∧
    removeToken [("a", [1])] "b" = ([("a", [1])], false) :=
  ⟨by decide, (C6_remove_idempotent [("a", [1])] "b").2 (by decide)⟩

/-- Claim C9: a non-admin set-timer request is denied; the timer value is
unchanged and the store is not rewritten. -/
theorem C9_settimer_nonadmin (adminId userId : Nat) (timer : Nat) (args : List String)
    (h : userId ≠ adminId) :
    settimer adminId userId timer args = (timer, TimerReply.denied, false) := by
  simp [settimer, h]

/-- Witness for C9 at a concrete input. -/
theorem C9_witness :
    (2 : Nat) ≠ 1 ∧ settimer 1 2 600 ["30"] = (600, TimerReply.denied, false) :=
  ⟨by decide, C9_settimer_nonadmin 1 2 600 ["30"] (by decide)⟩

/-- Claim C3: finishing a batch of N ≥ 1 accumulated items with every copy
succeeding creates a single registry entry binding the fresh token to
exactly N forwarded ids, in submission order, removes the admin's session
(back to no-session), arms one deletion job for those ids and saves the
store. -/
theorem C3_done_success (adminId : Nat) (st : BotState) (freshTok : String)
    (copy : Msg → Option Nat) (msgs : List Msg)
    (hsess : pyGet st.batch_sessions adminId = some msgs) (hne : msgs ≠ [])
    (hok : ∀ m ∈ msgs, (copy m).isSome = true) :
    (done_command adminId st adminId freshTok copy).reply = DoneReply.batchStored freshTok ∧
    pyGet (done_command adminId st adminId freshTok copy).state.video_storage freshTok =
      some (msgs.filterMap copy) ∧
    (msgs.filterMap copy).length = msgs.length ∧
    pyGet (done_command adminId st adminId freshTok copy).state.batch_sessions adminId =
      none ∧
    (done_command adminId st adminId freshTok copy).job =
      some ⟨freshTok, msgs.filterMap copy, st.delete_timer⟩ ∧
    (done_command adminId st adminId freshTok copy).saved = true := by
  have hie : msgs.isEmpty = false := by
    cases msgs with
    | nil => exact absurd rfl hne
    | cons a t => rfl
  have hcb := copyBatch_all_some copy msgs hok
  have hdone : done_command adminId st adminId freshTok copy =
      ⟨{ st with
          video_storage := pyInsert st.video_storage freshTok (msgs.filterMap copy),
          batch_sessions := pyErase st.batch_sessions adminId },
        DoneReply.batchStored freshTok,
        some ⟨freshTok, msgs.filterMap copy, st.delete_timer⟩, true,
        msgs.filterMap copy, msgs⟩ := by
    simp [done_command, hsess, hie, hcb]
  rw [hdone]
  exact ⟨rfl, pyGet_pyInsert_self _ _ _,
    length_filterMap_of_all_some copy msgs hok, pyGet_pyErase_self _ _, rfl, rfl⟩

/-- Witness for C3 at a concrete input: three uploads, all copies succeed. -/
theorem C3_witness :
    (done_command 1 (BotState.mk [] 600 [(1, [Msg.mk 10 11, Msg.mk 10 12, Msg.mk 10 13])])
        1 "t" (fun m => some (m.message_id + 100))).reply = DoneReply.batchStored "t" ∧
    pyGet (done_command 1 (BotState.mk [] 600 [(1, [Msg.mk 10 11, Msg.mk 10 12, Msg.mk 10 13])])
        1 "t" (fun m => some (m.message_id + 100))).state.video_storage "t" =
      some [111, 112, 113] ∧
    ([111, 112, 113] : List Nat).length =
      ([Msg.mk 10 11, Msg.mk 10 12, Msg.mk 10 13] : List Msg).length ∧
    pyGet (done_command 1 (BotState.mk [] 600 [(1, [Msg.mk 10 11, Msg.mk 10 12, Msg.mk 10 13])])
        1 "t" (fun m => some (m.message_id + 100))).state.batch_sessions 1 = none ∧
    (done_command 1 (BotState.mk [] 600 [(1, [Msg.mk 10 11, Msg.mk 10 12, Msg.mk 10 13])])
        1 "t" (fun m => some (m.message_id + 100))).job = some ⟨"t", [111, 112, 113], 600⟩ ∧
    (done_command 1 (BotState.mk [] 600 [(1, [Msg.mk 10 11, Msg.mk 10 12, Msg.mk 10 13])])
        1 "t" (fun m => some (m.message_id + 100))).saved = true :=
  C3_done_success 1 (BotState.mk [] 600 [(1, [Msg.mk 10 11, Msg.mk 10 12, Msg.mk 10 13])])
    "t" (fun m => some (m.message_id + 100)) [Msg.mk 10 11, Msg.mk 10 12, Msg.mk 10 13]
    rfl (by decide) (by decide)

/-- Claim C4: when a copy fails while finishing a batch, the copies after
the failing message are never attempted, no token is issued, no registry
entry is created, the store is not rewritten and no deletion job is armed;
the ids already forwarded are registered nowhere (the registry is exactly
what it was). -/
theorem C4_done_failure (adminId : Nat) (st : BotState) (freshTok : String)
    (copy : Msg → Option Nat) (pre : List Msg) (m : Msg) (post : List Msg)
    (hsess : pyGet st.batch_sessions adminId = some (pre ++ m :: post))
    (hpre : ∀ x ∈ pre, (copy x).isSome = true) (hm : copy m = none) :
    (done_command adminId st adminId freshTok copy).state.video_storage =
      st.video_storage ∧
    (done_command adminId st adminId freshTok copy).reply = DoneReply.batchError ∧
    (done_command adminId st adminId freshTok copy).job = none ∧
    (done_command adminId st adminId freshTok copy).saved = false ∧
    (done_command adminId st adminId freshTok copy).attempted = pre ++ [m] ∧
    (done_command adminId st adminId freshTok copy).copied = pre.filterMap copy := by
  have hie : (pre ++ m :: post).isEmpty = false := by cases pre <;> rfl
  have hcb := copyBatch_first_failure copy pre m post hpre hm
  have hdone : done_command adminId st adminId freshTok copy =
      ⟨{ st with batch_sessions := pyErase st.batch_sessions adminId },
        DoneReply.batchError, none, false, pre.filterMap copy, pre ++ [m]⟩ := by
    simp [done_command, hsess, hie, hcb]
  rw [hdone]
  exact ⟨rfl, rfl, rfl, rfl, rfl, rfl⟩

/-- Witness for C4 at a concrete input: the second of three copies fails. -/
theorem C4_witness :
    (done_command 1 (BotState.mk [("a", [9])] 600 [(1, [Msg.mk 1 2, Msg.mk 1 3, Msg.mk 1 4])])
        1 "t" (fun x => if x.message_id = 3 then none else some (x.message_id + 100))
      ).state.video_storage = [("a", [9])] ∧
    (done_command 1 (BotState.mk [("a", [9])] 600 [(1, [Msg.mk 1 2, Msg.mk 1 3, Msg.mk 1 4])])
        1 "t" (fun x => if x.message_id = 3 then none else some (x.message_id + 100))
      ).reply = DoneReply.batchError ∧
    (done_command 1 (BotState.mk [("a", [9])] 600 [(1, [Msg.mk 1 2, Msg.mk 1 3, Msg.mk 1 4])])
        1 "t" (fun x => if x.message_id = 3 then none else some (x.message_id + 100))
      ).job = none ∧
    (done_command 1 (BotState.mk [("a", [9])] 600 [(1, [Msg.mk 1 2, Msg.mk 1 3, Msg.mk 1 4])])
        1 "t" (fun x => if x.message_id = 3 then none else some (x.message_id + 100))
      ).saved = false ∧
    (done_command 1 (BotState.mk [("a", [9])] 600 [(1, [Msg.mk 1 2, Msg.mk 1 3, Msg.mk 1 4])])
        1 "t" (fun x => if x.message_id = 3 then none else some (x.message_id + 100))
      ).attempted = [Msg.mk 1 2, Msg.mk 1 3] ∧
    (done_command 1 (BotState.mk [("a", [9])] 600 [(1, [Msg.mk 1 2, Msg.mk 1 3, Msg.mk 1 4])])
        1 "t" (fun x => if x.message_id = 3 then none else some (x.message_id + 100))
      ).copied = [102] :=
  C4_done_failure 1 (BotState.mk [("a", [9])] 600 [(1, [Msg.mk 1 2, Msg.mk 1 3, Msg.mk 1 4])])
    "t" (fun x => if x.message_id = 3 then none else some (x.message_id + 100))
    [Msg.mk 1 2] (Msg.mk 1 3) [Msg.mk 1 4] rfl (by decide) (by decide)

/-- Claim C7: starting a batch while one is already active fails and
leaves the whole state — hence the active session's accumulated items —
unchanged; starting with no session creates an empty accumulating
session for the admin. -/
theorem C7_batch_begin (adminId : Nat) (st : BotState) :
    (pyContains st.batch_sessions adminId = true →
      batch_command adminId st adminId = (st, BatchReply.alreadyActive)) ∧
    (pyContains st.batch_sessions adminId = false →
      batch_command adminId st adminId =
        ({ st with batch_sessions := pyInsert st.batch_sessions adminId [] },
          BatchReply.started) ∧
      pyGet (pyInsert st.batch_sessions adminId ([] : List Msg)) adminId = some []) := by
  constructor
  · intro h
    simp [batch_command, h]
  · intro h
    exact ⟨by simp [batch_command, h], pyGet_pyInsert_self _ _ _⟩

/-- Witness for C7 at concrete inputs: one state with an active session,
one without. -/
theorem C7_witness :
    batch_command 1 (BotState.mk [] 600 [(1, [Msg.mk 5 6])]) 1 =
      (BotState.mk [] 600 [(1, [Msg.mk 5 6])], BatchReply.alreadyActive) ∧
    (batch_command 1 (BotState.mk [] 600 []) 1 =
        (BotState.mk [] 600 [(1, [])], BatchReply.started) ∧
      pyGet ([(1, ([] : List Msg))]) 1 = some []) :=
  ⟨(C7_batch_begin 1 (BotState.mk [] 600 [(1, [Msg.mk 5 6])])).1 rfl,
    (C7_batch_begin 1 (BotState.mk [] 600 [])).2 rfl⟩

/-- Claim C8: finishing with an empty accumulated item list fails and
creates no registry entry: the whole state is returned unchanged, nothing
is saved, no deletion job is armed. -/
theorem C8_done_empty (adminId : Nat) (st : BotState) (freshTok : String)
    (copy : Msg → Option Nat)
    (hsess : pyGet st.batch_sessions adminId = some []) :
    done_command adminId st adminId freshTok copy =
      ⟨st, DoneReply.noBatch, none, false, [], []⟩ := by
  simp [done_command, hsess]

/-- Witness for C8 at a concrete input. -/
theorem C8_witness :
    pyGet (BotState.mk [] 600 [(1, [])]).batch_sessions 1 = some [] ∧
    done_command 1 (BotState.mk [] 600 [(1, [])]) 1 "t" (fun _ => none) =
      ⟨BotState.mk [] 600 [(1, [])], DoneReply.noBatch, none, false, [], []⟩ :=
  ⟨rfl, C8_done_empty 1 (BotState.mk [] 600 [(1, [])]) "t" (fun _ => none) rfl⟩

/-- Claim C10: the session is popped before the copy loop runs, so a
failed finish loses the accumulated items irrecoverably: the session is
gone, the registry holds no entry for them, and a second finish fails
exactly as if no session had ever been started. -/
theorem C10_failed_done_loses_batch (adminId : Nat) (st : BotState)
    (freshTok freshTok2 : String) (copy copy2 : Msg → Option Nat)
    (pre : List Msg) (m : Msg) (post : List Msg)
    (hsess : pyGet st.batch_sessions adminId = some (pre ++ m :: post))
    (hpre : ∀ x ∈ pre, (copy x).isSome = true) (hm : copy m = none) :
    pyGet (done_command adminId st adminId freshTok copy).state.batch_sessions adminId =
      none ∧
    (done_command adminId st adminId freshTok copy).state.video_storage =
      st.video_storage ∧
    done_command adminId (done_command adminId st adminId freshTok copy).state adminId
        freshTok2 copy2 =
      ⟨(done_command adminId st adminId freshTok copy).state, DoneReply.noBatch,
        none, false, [], []⟩ := by
  have hie : (pre ++ m :: post).isEmpty = false := by cases pre <;> rfl
  have hcb := copyBatch_first_failure copy pre m post hpre hm
  have hdone : done_command adminId st adminId freshTok copy =
      ⟨{ st with batch_sessions := pyErase st.batch_sessions adminId },
        DoneReply.batchError, none, false, pre.filterMap copy, pre ++ [m]⟩ := by
    simp [done_command, hsess, hie, hcb]
  rw [hdone]
  have hgone : pyGet (pyErase st.batch_sessions adminId) adminId =
      (none : Option (List Msg)) := pyGet_pyErase_self _ _
  refine ⟨hgone, rfl, ?_⟩
  simp [done_command, hgone]

/-- Witness for C10 at a concrete input: a failed finish followed by a
second finish. -/
theorem C10_witness :
    pyGet (done_command 1 (BotState.mk [] 600 [(1, [Msg.mk 1 2, Msg.mk 1 3])]) 1 "t"
        (fun x => if x.message_id = 3 then none else some (x.message_id + 100))
      ).state.batch_sessions 1 = none ∧
    (done_command 1 (BotState.mk [] 600 [(1, [Msg.mk 1 2, Msg.mk 1 3])]) 1 "t"
        (fun x => if x.message_id = 3 then none else some (x.message_id + 100))
      ).state.video_storage = [] ∧
    done_command 1 (done_command 1 (BotState.mk [] 600 [(1, [Msg.mk 1 2, Msg.mk 1 3])]) 1 "t"
        (fun x => if x.message_id = 3 then none else some (x.message_id + 100))).state 1 "u"
        (fun x => some x.message_id) =
      ⟨(done_command 1 (BotState.mk [] 600 [(1, [Msg.mk 1 2, Msg.mk 1 3])]) 1 "t"
          (fun x => if x.message_id = 3 then none else some (x.message_id + 100))).state,
        DoneReply.noBatch, none, false, [], []⟩ :=
  C10_failed_done_loses_batch 1 (BotState.mk [] 600 [(1, [Msg.mk 1 2, Msg.mk 1 3])])
    "t" "u" (fun x => if x.message_id = 3 then none else some (x.message_id + 100))
    (fun x => some x.message_id) [Msg.mk 1 2] (Msg.mk 1 3) [] rfl (by decide) (by decide)

end FileStore
